import Mathlib

/-!
Shallow embedding of the ATLAS backend core (src/backend/app.py):
the credential-pool failover executor `call_ai_agent`, the response-shape
normalization it performs, the debate orchestration `run_debate` with its
in-memory TTL cache `DEBATE_CACHE`, and the single-stage `analyze_topic`
endpoint.  Remote effects (article fetching, chat-completion calls) are
modelled as oracle functions supplied in an `Env`; every embedded endpoint
additionally returns the trace of network interactions it performed, so
that claims of the form "no network call is made" are statable.
-/

namespace Atlas

/-- A single quote character, used when rebuilding the Python f-strings. -/
def sq : String := (Char.ofNat 39).toString

/-- The `SUPPORTED_MODELS` dict of app.py: short key to model identifier. -/
def SUPPORTED_MODELS : List (String × String) :=
  [("llama3", "meta-llama/Meta-Llama-3-8B-Instruct"),
   ("mistral", "mistralai/Mistral-7B-Instruct-v0.2"),
   ("gemma", "google/gemma-2-9b-it"),
   ("phi3", "microsoft/Phi-3-mini-4k-instruct")]

/-- `DEFAULT_MODEL = "llama3"` from app.py. -/
def DEFAULT_MODEL : String := "llama3"

/-- `CACHE_EXPIRATION_MINUTES = 60` from app.py. -/
def CACHE_EXPIRATION_MINUTES : Nat := 60

/-- Python dict lookup `d.get(k)`, with dicts modelled as key-value lists
(first binding wins, as dict keys are unique). -/
def lookup (d : List (String × String)) (k : String) : Option String :=
  match d with
  | [] => none
  | (kv : String × String) :: rest =>
      if kv.1 = k then some kv.2 else lookup rest k

/-- The `ROLE_PROMPTS` dict of app.py (backend version). -/
def ROLE_PROMPTS : List (String × String) :=
  [("tech_optimist", "You are a visionary technologist. Argue for AI’s potential..."),
   ("ai_ethicist", "You are a cautious AI ethics researcher. Argue for safety..."),
   ("bias_auditor", "You are an impartial Bias Auditor. Analyze debate bias..."),
   ("moderator", "You are a skilled debate moderator. Provide a balanced summary..."),
   ("osint_analyst",
    "You are a world-class Open-Source Intelligence (OSINT) analyst. " ++
    "Present your findings in the first person. Your report must be structured " ++
    "with the following four sections: " ++
    "1. " ++ sq ++ "Sources I Have Analyzed" ++ sq ++ ", " ++
    "2. " ++ sq ++ "Author and Publication Credibility Assessment" ++ sq ++ ", " ++
    "3. " ++ sq ++ "Legitimacy of the Information" ++ sq ++ ", " ++
    "4. " ++ sq ++ "Final Conclusion" ++ sq ++ "."),
   ("generic_agent", "You are a helpful AI assistant.")]

/-- `ROLE_PROMPTS[r]` (the keys used by the code are always present). -/
def role_prompt (r : String) : String := (lookup ROLE_PROMPTS r).getD ""

/-! ### Inference caller: completion objects and shape normalization -/

/-- The first element of `completion.choices` as the code inspects it:
either a dict holding a `"message"` key (whose `"content"` may be absent,
modelled by `Option`), an object with a `.message` attribute, or something
with neither. -/
inductive Choice where
  | dictMsg (content : Option String)
  | attrMsg (content : Option String)
  | plain
  deriving DecidableEq, Repr

/-- The raw completion object returned by `client.chat_completion`:
`choices = none` models a missing `choices` attribute, `generated_text`
models the flat HuggingFace text attribute, and `dump` models
`str(completion)`. -/
structure Completion where
  choices : Option (List Choice)
  generated_text : Option String
  dump : String
  deriving DecidableEq, Repr

/-- The response-shape handling of `call_ai_agent` (app.py lines 98-110):
a nonempty choice list with message content wins, then the flat
`generated_text` attribute, then `str(completion)`. -/
def normalize_completion (c : Completion) : String :=
  match c.choices with
  | some (Choice.dictMsg content :: _) => content.getD ""
  | some (Choice.attrMsg content :: _) => content.getD ""
  | _ =>
    match c.generated_text with
    | some t => t
    | none => c.dump

/-- Whether the structured choice-list shape is present: a nonempty
`choices` list whose first element carries a message. -/
def has_choice_message (c : Completion) : Bool :=
  match c.choices with
  | some (Choice.dictMsg _ :: _) => true
  | some (Choice.attrMsg _ :: _) => true
  | _ => false

/-! ### Failover executor -/

/-- What one attempt with one credential does: the remote call either
returns a completion object or raises `HfHubHTTPError` with a status. -/
inductive AttemptResult where
  | completed (c : Completion)
  | httpError (status : Nat)
  deriving DecidableEq, Repr

/-- Outcome of `call_ai_agent`: normalized text, a re-raised non-quota
`HfHubHTTPError`, or the final `Exception` after pool exhaustion. -/
inductive FailoverOutcome where
  | ok (text : String)
  | fatal (status : Nat)
  | exhausted (msg : String)
  deriving DecidableEq, Repr

/-- The quota test of app.py line 113: `status_code in [402, 429]`. -/
def is_quota_status (s : Nat) : Bool := s == 402 || s == 429

/-- A pool entry that would raise a quota-type HTTP error. -/
def is_quota_attempt : AttemptResult → Bool
  | AttemptResult.httpError s => is_quota_status s
  | AttemptResult.completed _ => false

/-- The credential loop of `call_ai_agent`, with `i` the index of the first
remaining credential; also returns the indices of the credentials actually
used for a request, in the order they were tried. -/
def call_ai_agent_go : List AttemptResult → Nat → FailoverOutcome × List Nat
  | [], _ => (FailoverOutcome.exhausted "All available API tokens have failed.", [])
  | r :: rest, i =>
    match r with
    | AttemptResult.completed c => (FailoverOutcome.ok (normalize_completion c), [i])
    | AttemptResult.httpError s =>
      if is_quota_status s then
        let p := call_ai_agent_go rest (i + 1)
        (p.1, i :: p.2)
      else
        (FailoverOutcome.fatal s, [i])

/-- `call_ai_agent` (app.py lines 78-118), abstracted over the behaviour of
each credential in `hf_tokens` (one `AttemptResult` per credential, in pool
order). -/
def call_ai_agent (pool : List AttemptResult) : FailoverOutcome × List Nat :=
  call_ai_agent_go pool 0

/-! ### Debate orchestration and cache -/

/-- The success payload `response_data` of `run_debate` (minus the constant
`"status": "success"` field): the role-to-statement transcript in insertion
order, the audit report, and the final synthesis. -/
structure DebateResponse where
  debate_transcript : List (String × String)
  audit_report : String
  final_synthesis : String
  deriving DecidableEq, Repr

/-- One `DEBATE_CACHE` value: `{"timestamp": ..., "response": ...}`. -/
structure CacheEntry where
  timestamp : Nat
  response : DebateResponse
  deriving DecidableEq, Repr

/-- The in-memory `DEBATE_CACHE` dict, keyed by the composite string key. -/
def Cache := List (String × CacheEntry)

/-- Dict lookup on the cache. -/
def cache_lookup : List (String × CacheEntry) → String → Option CacheEntry
  | [], _ => none
  | (ke : String × CacheEntry) :: rest, k =>
      if ke.1 = k then some ke.2 else cache_lookup rest k

/-- Dict assignment `DEBATE_CACHE[key] = entry`: replaces the binding if the
key is present, otherwise appends it. -/
def cache_store : List (String × CacheEntry) → String → CacheEntry → List (String × CacheEntry)
  | [], k, e => [(k, e)]
  | (ke : String × CacheEntry) :: rest, k, e =>
      if ke.1 = k then (k, e) :: rest else ke :: cache_store rest k e

/-- The cache test of app.py lines 216-218: an entry exists for the key and
`datetime.now() < timestamp + timedelta(minutes=60)`. -/
def cache_hit (cache : List (String × CacheEntry)) (key : String) (now : Nat) : Bool :=
  match cache_lookup cache key with
  | some entry => now < entry.timestamp + CACHE_EXPIRATION_MINUTES
  | none => false

/-- The remote world: `article` is what `get_article_content` returns for a
topic (that helper never raises, it degrades to fallback strings), and `ai`
is what a `call_ai_agent` invocation produces for given
(model id, system prompt, user message) — normalized text on success, or
the message of the raised exception. -/
structure Env where
  article : String → String
  ai : String → String → String → Except String String

/-- One recorded inference invocation: (model id, system prompt, user message). -/
def AICall := String × String × String

/-- The per-debater user message built in the `run_debate` loop. -/
def debater_message (article_text role topic : String) : String :=
  "Here is the content of relevant articles:\n" ++ article_text ++
  "\n\nBased on this evidence and your role as the " ++
  String.replace role "_" " " ++
  ", what is your opening statement on the topic of: " ++ sq ++ topic ++ sq ++ "?"

/-- Python `str.title()` on a single word: first character upper-cased, the
rest lower-cased. -/
def title_word (w : String) : String :=
  match w.data with
  | [] => ""
  | (ch : Char) :: rest => String.mk (ch.toUpper :: rest.map Char.toLower)

/-- Python `str.title()` restricted to space-separated words, which is the
only form the code applies it to (`role.replace("_", " ").title()`). -/
def py_title (s : String) : String :=
  String.intercalate " " ((s.splitOn " ").map title_word)

/-- The `transcript_for_audit` string built from the debate transcript. -/
def transcript_for_audit (topic : String) (transcript : List (String × String)) : String :=
  ("Debate Topic: " ++ sq ++ topic ++ sq ++ ".\n\n") ++
  String.join (transcript.map (fun rs =>
    "--- STATEMENT FROM: " ++ py_title (String.replace rs.1 "_" " ") ++
    " ---\n" ++ rs.2 ++ "\n\n"))

/-- The `text_for_moderator` string. -/
def text_for_moderator (transcript_text audit_report : String) : String :=
  "DEBATE TRANSCRIPT:\n" ++ transcript_text ++ "\n\nBIAS AUDIT REPORT:\n" ++ audit_report

/-- The body of the `try` block of `run_debate` (app.py lines 222-247):
evidence gathering, the two debater calls in fixed dict order, the bias
audit, and the moderation synthesis; any raised exception aborts the
sequence.  Also returns the list of inference invocations performed. -/
def debate_orchestration (env : Env) (topic model_id : String) :
    Except String DebateResponse × List (String × String × String) :=
  let article_text := env.article topic
  let m1 := debater_message article_text "tech_optimist" topic
  let c1 := (model_id, role_prompt "tech_optimist", m1)
  match env.ai model_id (role_prompt "tech_optimist") m1 with
  | Except.error e => (Except.error e, [c1])
  | Except.ok s1 =>
    let m2 := debater_message article_text "ai_ethicist" topic
    let c2 := (model_id, role_prompt "ai_ethicist", m2)
    match env.ai model_id (role_prompt "ai_ethicist") m2 with
    | Except.error e => (Except.error e, [c1, c2])
    | Except.ok s2 =>
      let transcript := [("tech_optimist", s1), ("ai_ethicist", s2)]
      let ta := transcript_for_audit topic transcript
      let c3 := (model_id, role_prompt "bias_auditor", ta)
      match env.ai model_id (role_prompt "bias_auditor") ta with
      | Except.error e => (Except.error e, [c1, c2, c3])
      | Except.ok audit_report =>
        let tm := text_for_moderator ta audit_report
        let c4 := (model_id, role_prompt "moderator", tm)
        match env.ai model_id (role_prompt "moderator") tm with
        | Except.error e => (Except.error e, [c1, c2, c3, c4])
        | Except.ok final_synthesis =>
          (Except.ok ⟨transcript, audit_report, final_synthesis⟩, [c1, c2, c3, c4])

/-- HTTP response of `run_debate`: a success JSON (200, also the shape the
cache-hit branch returns), a validation error (400), or the error JSON of
the `except` clause (500). -/
inductive Resp where
  | success (payload : DebateResponse)
  | badRequest (msg : String)
  | serverError (msg : String)
  deriving DecidableEq, Repr

/-- Full observable outcome of one `run_debate` request: the HTTP response,
the cache state afterwards, whether `get_article_content` ran, and the
inference invocations performed. -/
structure RunResult where
  resp : Resp
  cache : List (String × CacheEntry)
  evidence_fetched : Bool
  ai_calls : List (String × String × String)
  deriving DecidableEq, Repr

/-- The 400 message for a missing body or topic. -/
def bad_body_msg : String :=
  "Request body must be valid JSON and include " ++ sq ++ "topic" ++ sq

/-- The 400 message for an unsupported model key. -/
def model_not_supported_msg (model_key : String) : String :=
  "Model " ++ sq ++ model_key ++ sq ++ " not supported."

/-- The cache-miss path of `run_debate`: run the orchestration; on success
store the result under the key with the current timestamp and return it; on
an exception return the 500 error JSON and leave the cache untouched. -/
def run_debate_fresh (env : Env) (cache : List (String × CacheEntry)) (now : Nat)
    (topic model_id cache_key : String) : RunResult :=
  match debate_orchestration env topic model_id with
  | (Except.error e, calls) => ⟨Resp.serverError e, cache, true, calls⟩
  | (Except.ok payload, calls) =>
      ⟨Resp.success payload, cache_store cache cache_key ⟨now, payload⟩, true, calls⟩

/-- `run_debate` (app.py lines 203-253).  The request body is
`none` when JSON parsing failed (`get_json_from_request` returned `None`),
otherwise the parsed dict.  `now` is the current time in minutes. -/
def run_debate (env : Env) (cache : List (String × CacheEntry)) (now : Nat)
    (body : Option (List (String × String))) : RunResult :=
  match body with
  | none => ⟨Resp.badRequest bad_body_msg, cache, false, []⟩
  | some d =>
    if d.isEmpty || (lookup d "topic").isNone then
      ⟨Resp.badRequest bad_body_msg, cache, false, []⟩
    else
      let topic := (lookup d "topic").getD ""
      let model_key := (lookup d "model").getD DEFAULT_MODEL
      match lookup SUPPORTED_MODELS model_key with
      | none => ⟨Resp.badRequest (model_not_supported_msg model_key), cache, false, []⟩
      | some model_id =>
        let cache_key := topic ++ "_" ++ model_key
        match cache_lookup cache cache_key with
        | some entry =>
          if now < entry.timestamp + CACHE_EXPIRATION_MINUTES then
            ⟨Resp.success entry.response, cache, false, []⟩
          else
            run_debate_fresh env cache now topic model_id cache_key
        | none => run_debate_fresh env cache now topic model_id cache_key

/-- HTTP response of `analyze_topic`. -/
inductive AResp where
  | success (osint_report : String)
  | badRequest (msg : String)
  | serverError (msg : String)
  deriving DecidableEq, Repr

/-- Observable outcome of one `analyze_topic` request. -/
structure AnalyzeResult where
  resp : AResp
  evidence_fetched : Bool
  ai_calls : List (String × String × String)
  deriving DecidableEq, Repr

/-- The user message built by `analyze_topic`. -/
def osint_message (topic article_text : String) : String :=
  "Here is the topic for analysis: " ++ sq ++ topic ++ sq ++
  ".\n\nHere are the source articles I have retrieved:\n" ++ article_text

/-- `analyze_topic` (app.py lines 178-201): same validation as
`run_debate`, then evidence gathering and a single failover call with the
OSINT analyst role. -/
def analyze_topic (env : Env) (body : Option (List (String × String))) : AnalyzeResult :=
  match body with
  | none => ⟨AResp.badRequest bad_body_msg, false, []⟩
  | some d =>
    if d.isEmpty || (lookup d "topic").isNone then
      ⟨AResp.badRequest bad_body_msg, false, []⟩
    else
      let topic := (lookup d "topic").getD ""
      let model_key := (lookup d "model").getD DEFAULT_MODEL
      match lookup SUPPORTED_MODELS model_key with
      | none => ⟨AResp.badRequest (model_not_supported_msg model_key), false, []⟩
      | some model_id =>
        let article_text := env.article topic
        let um := osint_message topic article_text
        match env.ai model_id (role_prompt "osint_analyst") um with
        | Except.error e =>
            ⟨AResp.serverError e, true, [(model_id, role_prompt "osint_analyst", um)]⟩
        | Except.ok report =>
            ⟨AResp.success report, true, [(model_id, role_prompt "osint_analyst", um)]⟩

/-! ### Lemmas about the failover executor -/

/-- Running the credential loop past a prefix of quota-type failures: each
prefix credential is tried once, in order, and the loop continues on the
rest with the index advanced. -/
theorem call_ai_agent_go_quota_skips (qs rest : List AttemptResult) (i : Nat)
    (h : ∀ r ∈ qs, is_quota_attempt r = true) :
    call_ai_agent_go (qs ++ rest) i =
      ((call_ai_agent_go rest (i + qs.length)).1,
       List.range' i qs.length ++ (call_ai_agent_go rest (i + qs.length)).2) := by
  induction qs generalizing i with
  | nil => simp [List.range']
  | cons r qs ih =>
    have hr := h r (List.mem_cons_self r qs)
    cases r with
    | completed c => simp [is_quota_attempt] at hr
    | httpError s =>
      have hs : is_quota_status s = true := hr
      have ih2 := ih (i + 1) (fun r hr2 => h r (List.mem_cons_of_mem _ hr2))
      have harith : i + 1 + qs.length = i + (qs.length + 1) := by omega
      simp only [List.cons_append, call_ai_agent_go, hs, if_true, List.append_eq,
        ih2, harith, List.length_cons, List.range'_succ]

/-- The loop never looks at a credential after the first successful one. -/
theorem call_ai_agent_go_success (c : Completion) (rest : List AttemptResult) (i : Nat) :
    call_ai_agent_go (AttemptResult.completed c :: rest) i =
      (FailoverOutcome.ok (normalize_completion c), [i]) := rfl

/-- The loop re-raises a non-quota HTTP error at once. -/
theorem call_ai_agent_go_fatal (s : Nat) (hs : is_quota_status s = false)
    (rest : List AttemptResult) (i : Nat) :
    call_ai_agent_go (AttemptResult.httpError s :: rest) i =
      (FailoverOutcome.fatal s, [i]) := by
  simp [call_ai_agent_go, hs]

end Atlas

namespace Atlas

/-- C1: with a pool whose first K credentials each raise a quota-type
failure (HTTP 402 or 429) and whose credential K+1 returns a completion,
`call_ai_agent` returns the text normalized from that completion, and the
credentials it issued requests with are exactly 0..K — credential K+2 and
later are never used. -/
theorem claim_c1_failover_stops_at_first_success
    (qs : List AttemptResult) (c : Completion) (rest : List AttemptResult)
    (h : ∀ r ∈ qs, is_quota_attempt r = true) :
    call_ai_agent (qs ++ AttemptResult.completed c :: rest) =
      (FailoverOutcome.ok (normalize_completion c), List.range (qs.length + 1)) ∧
    ∀ j ∈ (call_ai_agent (qs ++ AttemptResult.completed c :: rest)).2,
      j < qs.length + 1 := by
  have key : call_ai_agent (qs ++ AttemptResult.completed c :: rest) =
      (FailoverOutcome.ok (normalize_completion c), List.range (qs.length + 1)) := by
    unfold call_ai_agent
    rw [call_ai_agent_go_quota_skips qs _ 0 h, call_ai_agent_go_success,
      List.range_succ, List.range_eq_range']
    simp
  refine ⟨key, ?_⟩
  intro j hj
  rw [key] at hj
  simpa using List.mem_range.mp hj

/-- Witness for C1: two credentials, the first quota-limited (429), the
second succeeding with a flat generated-text completion. -/
theorem claim_c1_witness :
    call_ai_agent [AttemptResult.httpError 429,
        AttemptResult.completed ⟨none, some "fine", "dump"⟩] =
      (FailoverOutcome.ok "fine", [0, 1]) := by
  have h := (claim_c1_failover_stops_at_first_success
    [AttemptResult.httpError 429] ⟨none, some "fine", "dump"⟩ [] (by decide)).1
  simpa [normalize_completion, List.range] using h

/-- C4: if the first K credentials raise quota-type failures and credential
K+1 raises a non-quota HTTP error, `call_ai_agent` propagates that error at
once and issues no request with any remaining credential (only credentials
0..K are used).  K = 0 gives the single-credential case. -/
theorem claim_c4_fatal_propagates_immediately
    (qs : List AttemptResult) (s : Nat) (rest : List AttemptResult)
    (h : ∀ r ∈ qs, is_quota_attempt r = true)
    (hs : is_quota_status s = false) :
    call_ai_agent (qs ++ AttemptResult.httpError s :: rest) =
      (FailoverOutcome.fatal s, List.range (qs.length + 1)) ∧
    ∀ j ∈ (call_ai_agent (qs ++ AttemptResult.httpError s :: rest)).2,
      j < qs.length + 1 := by
  have key : call_ai_agent (qs ++ AttemptResult.httpError s :: rest) =
      (FailoverOutcome.fatal s, List.range (qs.length + 1)) := by
    unfold call_ai_agent
    rw [call_ai_agent_go_quota_skips qs _ 0 h, call_ai_agent_go_fatal s hs,
      List.range_succ, List.range_eq_range']
    simp
  refine ⟨key, ?_⟩
  intro j hj
  rw [key] at hj
  simpa using List.mem_range.mp hj

/-- Witness for C4: one single credential failing with HTTP 500; the error
is propagated and no other credential is consumed. -/
theorem claim_c4_witness :
    call_ai_agent [AttemptResult.httpError 500,
        AttemptResult.completed ⟨none, some "late", "dump"⟩] =
      (FailoverOutcome.fatal 500, [0]) := by
  have h := (claim_c4_fatal_propagates_immediately
    [] 500 [AttemptResult.completed ⟨none, some "late", "dump"⟩]
    (by decide) (by decide)).1
  simpa [List.range] using h

/-- C6: when every credential raises a quota-type failure, `call_ai_agent`
raises the exhaustion error with the exact message of app.py line 118
after trying each credential exactly once, in pool order. -/
theorem claim_c6_pool_exhaustion
    (pool : List AttemptResult)
    (h : ∀ r ∈ pool, is_quota_attempt r = true) :
    call_ai_agent pool =
      (FailoverOutcome.exhausted "All available API tokens have failed.",
       List.range pool.length) := by
  have : pool = pool ++ [] := by simp
  rw [this]
  unfold call_ai_agent
  rw [call_ai_agent_go_quota_skips pool [] 0 h, List.range_eq_range']
  simp [call_ai_agent_go]

/-- Witness for C6: two credentials failing with 402 and 429. -/
theorem claim_c6_witness :
    call_ai_agent [AttemptResult.httpError 402, AttemptResult.httpError 429] =
      (FailoverOutcome.exhausted "All available API tokens have failed.", [0, 1]) := by
  have h := claim_c6_pool_exhaustion
    [AttemptResult.httpError 402, AttemptResult.httpError 429] (by decide)
  simpa [List.range] using h

/-- C9: the inference caller normalizes a structured choice-list shape
(nested message content, either dict- or attribute-style) into that
content, falls back to the flat generated-text shape, and when neither
shape is present returns the stringified dump of the raw response instead
of failing. -/
theorem claim_c9_response_normalization (c : Completion) :
    (∀ content rest, c.choices = some (Choice.dictMsg content :: rest) →
        normalize_completion c = content.getD "") ∧
    (∀ content rest, c.choices = some (Choice.attrMsg content :: rest) →
        normalize_completion c = content.getD "") ∧
    (has_choice_message c = false → ∀ t, c.generated_text = some t →
        normalize_completion c = t) ∧
    (has_choice_message c = false → c.generated_text = none →
        normalize_completion c = c.dump) := by
  obtain ⟨cs, gt, dmp⟩ := c
  refine ⟨?_, ?_, ?_, ?_⟩
  · intro content rest hcs
    simp only at hcs
    subst hcs
    rfl
  · intro content rest hcs
    simp only at hcs
    subst hcs
    rfl
  · intro hshape t hgt
    simp only at hgt
    subst hgt
    match cs with
    | none => rfl
    | some [] => rfl
    | some (Choice.dictMsg _ :: _) => simp [has_choice_message] at hshape
    | some (Choice.attrMsg _ :: _) => simp [has_choice_message] at hshape
    | some (Choice.plain :: _) => rfl
  · intro hshape hgt
    simp only at hgt
    subst hgt
    match cs with
    | none => rfl
    | some [] => rfl
    | some (Choice.dictMsg _ :: _) => simp [has_choice_message] at hshape
    | some (Choice.attrMsg _ :: _) => simp [has_choice_message] at hshape
    | some (Choice.plain :: _) => rfl

/-- Witness for C9: a completion with no recognizable shape is rendered as
its stringified dump. -/
theorem claim_c9_witness :
    normalize_completion ⟨some [Choice.plain], none, "raw-dump"⟩ = "raw-dump" :=
  (claim_c9_response_normalization ⟨some [Choice.plain], none, "raw-dump"⟩).2.2.2
    (by decide) rfl

/-! ### Lemmas about the cache and the orchestration -/

/-- A dict with a successful lookup is nonempty. -/
theorem lookup_some_ne_empty {d : List (String × String)} {k v : String}
    (h : lookup d k = some v) : d.isEmpty = false := by
  cases d with
  | nil => simp [lookup] at h
  | cons p rest => rfl

/-- A successful cache lookup returns a binding stored in the cache. -/
theorem cache_lookup_mem (cache : List (String × CacheEntry)) (k : String) (e : CacheEntry) :
    cache_lookup cache k = some e → (k, e) ∈ cache := by
  induction cache with
  | nil => intro h; simp [cache_lookup] at h
  | cons ke rest ih =>
    intro h
    simp only [cache_lookup] at h
    by_cases hk : ke.1 = k
    · rw [if_pos hk] at h
      have he : ke.2 = e := Option.some.inj h
      have hke : ke = (k, e) := by
        obtain ⟨a, b⟩ := ke
        simp only at hk he
        rw [hk, he]
      rw [hke]
      exact List.mem_cons_self _ _
    · rw [if_neg hk] at h
      exact List.mem_cons_of_mem _ (ih h)

/-- Every binding of the cache after a store is either an old binding or
the freshly written one. -/
theorem cache_store_mem (cache : List (String × CacheEntry)) (k : String) (e : CacheEntry)
    (pr : String × CacheEntry) :
    pr ∈ cache_store cache k e → pr ∈ cache ∨ pr = (k, e) := by
  induction cache with
  | nil => intro h; simp [cache_store] at h; right; exact h
  | cons ke rest ih =>
    intro h
    simp only [cache_store] at h
    by_cases hk : ke.1 = k
    · rw [if_pos hk] at h
      rcases List.mem_cons.mp h with h1 | h2
      · right; exact h1
      · left; exact List.mem_cons_of_mem _ h2
    · rw [if_neg hk] at h
      rcases List.mem_cons.mp h with h1 | h2
      · left; rw [h1]; exact List.mem_cons_self _ _
      · rcases ih h2 with h3 | h3
        · left; exact List.mem_cons_of_mem _ h3
        · right; exact h3

/-- The cache test succeeds exactly when an entry exists for the key and
the current time is strictly below its timestamp plus the TTL. -/
theorem cache_hit_true_iff (cache : List (String × CacheEntry)) (key : String) (now : Nat) :
    cache_hit cache key now = true ↔
      ∃ e, cache_lookup cache key = some e ∧
        now < e.timestamp + CACHE_EXPIRATION_MINUTES := by
  unfold cache_hit
  cases h : cache_lookup cache key with
  | none => simp
  | some e => simp

/-- The orchestration always performs at least one inference call (the
first debater is always attempted). -/
theorem debate_orchestration_calls_ne_nil (env : Env) (topic model_id : String) :
    (debate_orchestration env topic model_id).2 ≠ [] := by
  unfold debate_orchestration
  rcases h1 : env.ai model_id (role_prompt "tech_optimist")
      (debater_message (env.article topic) "tech_optimist" topic) with e | s1
  · simp [h1]
  rcases h2 : env.ai model_id (role_prompt "ai_ethicist")
      (debater_message (env.article topic) "ai_ethicist" topic) with e | s2
  · simp [h1, h2]
  rcases h3 : env.ai model_id (role_prompt "bias_auditor")
      (transcript_for_audit topic [("tech_optimist", s1), ("ai_ethicist", s2)]) with e | audit
  · simp [h1, h2, h3]
  rcases h4 : env.ai model_id (role_prompt "moderator")
      (text_for_moderator
        (transcript_for_audit topic [("tech_optimist", s1), ("ai_ethicist", s2)])
        audit) with e | synth
  · simp [h1, h2, h3, h4]
  · simp [h1, h2, h3, h4]

/-- A successful orchestration produces the transcript of exactly the two
fixed debater roles, in iteration order. -/
theorem debate_orchestration_ok_shape (env : Env) (topic model_id : String)
    (payload : DebateResponse) (calls : List (String × String × String))
    (h : debate_orchestration env topic model_id = (Except.ok payload, calls)) :
    payload.debate_transcript.map Prod.fst = ["tech_optimist", "ai_ethicist"] := by
  unfold debate_orchestration at h
  rcases h1 : env.ai model_id (role_prompt "tech_optimist")
      (debater_message (env.article topic) "tech_optimist" topic) with e | s1
  · simp [h1] at h
  rcases h2 : env.ai model_id (role_prompt "ai_ethicist")
      (debater_message (env.article topic) "ai_ethicist" topic) with e | s2
  · simp [h1, h2] at h
  rcases h3 : env.ai model_id (role_prompt "bias_auditor")
      (transcript_for_audit topic [("tech_optimist", s1), ("ai_ethicist", s2)]) with e | audit
  · simp [h1, h2, h3] at h
  rcases h4 : env.ai model_id (role_prompt "moderator")
      (text_for_moderator
        (transcript_for_audit topic [("tech_optimist", s1), ("ai_ethicist", s2)])
        audit) with e | synth
  · simp [h1, h2, h3, h4] at h
  · simp only [h1, h2, h3, h4, Prod.mk.injEq, Except.ok.injEq] at h
    rw [← h.1]
    rfl

/-- The cache-miss path records exactly the inference calls of the
orchestration. -/
theorem run_debate_fresh_ai_calls (env : Env) (cache : List (String × CacheEntry))
    (now : Nat) (topic model_id cache_key : String) :
    (run_debate_fresh env cache now topic model_id cache_key).ai_calls =
      (debate_orchestration env topic model_id).2 := by
  cases hdo : debate_orchestration env topic model_id with
  | mk res calls => cases res <;> simp [run_debate_fresh, hdo]

/-- On a valid request whose key is cached and fresh, `run_debate` returns
the stored payload, leaves the cache alone, and performs no network
interaction. -/
theorem run_debate_hit_eq (env : Env) (cache : List (String × CacheEntry)) (now : Nat)
    (d : List (String × String)) (topic model_key model_id : String) (entry : CacheEntry)
    (ht : lookup d "topic" = some topic)
    (hm : (lookup d "model").getD DEFAULT_MODEL = model_key)
    (hid : lookup SUPPORTED_MODELS model_key = some model_id)
    (hentry : cache_lookup cache (topic ++ "_" ++ model_key) = some entry)
    (htime : now < entry.timestamp + CACHE_EXPIRATION_MINUTES) :
    run_debate env cache now (some d) =
      ⟨Resp.success entry.response, cache, false, []⟩ := by
  have hne := lookup_some_ne_empty ht
  simp [run_debate, hne, ht, hm, hid, hentry, htime]

/-- On a valid request whose key is missing or expired, `run_debate` falls
through to the fresh-orchestration path. -/
theorem run_debate_miss_eq (env : Env) (cache : List (String × CacheEntry)) (now : Nat)
    (d : List (String × String)) (topic model_key model_id : String)
    (ht : lookup d "topic" = some topic)
    (hm : (lookup d "model").getD DEFAULT_MODEL = model_key)
    (hid : lookup SUPPORTED_MODELS model_key = some model_id)
    (hmiss : cache_hit cache (topic ++ "_" ++ model_key) now = false) :
    run_debate env cache now (some d) =
      run_debate_fresh env cache now topic model_id (topic ++ "_" ++ model_key) := by
  have hne := lookup_some_ne_empty ht
  cases hcl : cache_lookup cache (topic ++ "_" ++ model_key) with
  | none => simp [run_debate, hne, ht, hm, hid, hcl]
  | some entry =>
    have htime : ¬ now < entry.timestamp + CACHE_EXPIRATION_MINUTES := by
      simpa [cache_hit, hcl] using hmiss
    simp [run_debate, hne, ht, hm, hid, hcl, htime]

/-- A payload that has the fixed two-debater transcript shape. -/
def good_payload (p : DebateResponse) : Prop :=
  p.debate_transcript.map Prod.fst = ["tech_optimist", "ai_ethicist"]

/-- An environment where every remote interaction succeeds with the fixed
text "reply". -/
def stub_env : Env :=
  ⟨fun _ => "no-articles", fun _ _ _ => Except.ok "reply"⟩

/-- An environment where the inference service always raises. -/
def stub_env_err : Env :=
  ⟨fun _ => "no-articles", fun _ _ _ => Except.error "boom"⟩

/-- C2: on a valid request, the lookup is a hit exactly when an entry
exists for the exact composite key and the current time is strictly below
its creation time plus 60 minutes; on a hit the identical stored payload is
returned with zero inference calls and the cache untouched; on a missing or
expired entry the full orchestration runs afresh; and a hit is equivalent
to zero inference calls being performed. -/
theorem claim_c2_cache_hit_semantics (env : Env) (cache : List (String × CacheEntry))
    (now : Nat) (d : List (String × String)) (topic model_key model_id : String)
    (ht : lookup d "topic" = some topic)
    (hm : (lookup d "model").getD DEFAULT_MODEL = model_key)
    (hid : lookup SUPPORTED_MODELS model_key = some model_id) :
    (cache_hit cache (topic ++ "_" ++ model_key) now = true ↔
       ∃ e, cache_lookup cache (topic ++ "_" ++ model_key) = some e ∧
         now < e.timestamp + 60) ∧
    (∀ e, cache_lookup cache (topic ++ "_" ++ model_key) = some e →
       now < e.timestamp + 60 →
       run_debate env cache now (some d) =
         ⟨Resp.success e.response, cache, false, []⟩) ∧
    (cache_hit cache (topic ++ "_" ++ model_key) now = false →
       run_debate env cache now (some d) =
         run_debate_fresh env cache now topic model_id (topic ++ "_" ++ model_key)) ∧
    (cache_hit cache (topic ++ "_" ++ model_key) now = true ↔
       (run_debate env cache now (some d)).ai_calls = []) := by
  have hiff := cache_hit_true_iff cache (topic ++ "_" ++ model_key) now
  refine ⟨by simpa [CACHE_EXPIRATION_MINUTES] using hiff, ?_, ?_, ?_⟩
  · intro e he htlt
    exact run_debate_hit_eq env cache now d topic model_key model_id e ht hm hid he htlt
  · intro hmiss
    exact run_debate_miss_eq env cache now d topic model_key model_id ht hm hid hmiss
  · constructor
    · intro hh
      obtain ⟨e, he, htlt⟩ := hiff.mp hh
      rw [run_debate_hit_eq env cache now d topic model_key model_id e ht hm hid he htlt]
    · intro hcalls
      by_contra hh
      have hmiss : cache_hit cache (topic ++ "_" ++ model_key) now = false :=
        Bool.not_eq_true _ ▸ Bool.eq_false_iff.mpr hh
      rw [run_debate_miss_eq env cache now d topic model_key model_id ht hm hid hmiss]
        at hcalls
      rw [run_debate_fresh_ai_calls] at hcalls
      exact debate_orchestration_calls_ne_nil env topic model_id hcalls

/-- Witness for C2: a fresh cached entry (created at minute 5, looked up at
minute 10) is returned unchanged with no network interaction. -/
theorem claim_c2_witness :
    run_debate stub_env
        [("t_llama3", ⟨5, ⟨[("tech_optimist", "a"), ("ai_ethicist", "b")], "c", "d"⟩⟩)]
        10 (some [("topic", "t")]) =
      ⟨Resp.success ⟨[("tech_optimist", "a"), ("ai_ethicist", "b")], "c", "d"⟩,
       [("t_llama3", ⟨5, ⟨[("tech_optimist", "a"), ("ai_ethicist", "b")], "c", "d"⟩⟩)],
       false, []⟩ := by
  have h := (claim_c2_cache_hit_semantics stub_env
      [("t_llama3", ⟨5, ⟨[("tech_optimist", "a"), ("ai_ethicist", "b")], "c", "d"⟩⟩)]
      10 [("topic", "t")] "t" "llama3" "meta-llama/Meta-Llama-3-8B-Instruct"
      rfl rfl rfl).2.1
    ⟨5, ⟨[("tech_optimist", "a"), ("ai_ethicist", "b")], "c", "d"⟩⟩ rfl (by decide)
  simpa using h

/-- C3: on a valid uncached (or expired) request, a failure at any
orchestration stage makes the whole run answer with the 500 error JSON
carrying only the error message, leaving the cache unchanged; the result is
stored in the cache only when all stages succeed. -/
theorem claim_c3_stage_failure_atomicity (env : Env) (cache : List (String × CacheEntry))
    (now : Nat) (d : List (String × String)) (topic model_key model_id : String)
    (ht : lookup d "topic" = some topic)
    (hm : (lookup d "model").getD DEFAULT_MODEL = model_key)
    (hid : lookup SUPPORTED_MODELS model_key = some model_id)
    (hmiss : cache_hit cache (topic ++ "_" ++ model_key) now = false) :
    (∀ e calls, debate_orchestration env topic model_id = (Except.error e, calls) →
       run_debate env cache now (some d) =
         ⟨Resp.serverError e, cache, true, calls⟩) ∧
    (∀ payload calls,
       debate_orchestration env topic model_id = (Except.ok payload, calls) →
       run_debate env cache now (some d) =
         ⟨Resp.success payload,
          cache_store cache (topic ++ "_" ++ model_key) ⟨now, payload⟩, true, calls⟩) := by
  have hrd := run_debate_miss_eq env cache now d topic model_key model_id ht hm hid hmiss
  constructor
  · intro e calls hdo
    rw [hrd]
    simp [run_debate_fresh, hdo]
  · intro payload calls hdo
    rw [hrd]
    simp [run_debate_fresh, hdo]

/-- Witness for C3: the inference service raising at the first stage makes
`run_debate` answer with the 500 error and leave the empty cache empty. -/
theorem claim_c3_witness :
    run_debate stub_env_err [] 0 (some [("topic", "t")]) =
      ⟨Resp.serverError "boom", [], true,
       (debate_orchestration stub_env_err "t" "meta-llama/Meta-Llama-3-8B-Instruct").2⟩ := by
  have h := (claim_c3_stage_failure_atomicity stub_env_err [] 0 [("topic", "t")]
      "t" "llama3" "meta-llama/Meta-Llama-3-8B-Instruct" rfl rfl rfl rfl).1
    "boom" (debate_orchestration stub_env_err "t" "meta-llama/Meta-Llama-3-8B-Instruct").2
    rfl
  simpa using h

/-- C5: starting from a cache whose entries all have the fixed shape (the
invariant every cache write maintains), a successful `run_debate` answer
carries exactly the two fixed debater roles in its transcript plus the one
audit report and one synthesis the payload record holds, and the resulting
cache keeps the invariant. -/
theorem claim_c5_success_shape (env : Env) (cache : List (String × CacheEntry))
    (now : Nat) (d : List (String × String)) (topic model_key model_id : String)
    (p : DebateResponse)
    (hcache : ∀ pr ∈ cache, good_payload (Prod.snd pr).response)
    (ht : lookup d "topic" = some topic)
    (hm : (lookup d "model").getD DEFAULT_MODEL = model_key)
    (hid : lookup SUPPORTED_MODELS model_key = some model_id)
    (hs : (run_debate env cache now (some d)).resp = Resp.success p) :
    good_payload p ∧
    ∀ pr ∈ (run_debate env cache now (some d)).cache,
      good_payload (Prod.snd pr).response := by
  by_cases hh : cache_hit cache (topic ++ "_" ++ model_key) now = true
  · obtain ⟨e, he, htlt⟩ := (cache_hit_true_iff cache _ now).mp hh
    have hrd := run_debate_hit_eq env cache now d topic model_key model_id e ht hm hid he htlt
    rw [hrd] at hs ⊢
    have hp : e.response = p := by simpa using hs
    refine ⟨?_, fun pr hpr => hcache pr hpr⟩
    rw [← hp]
    exact hcache (topic ++ "_" ++ model_key, e)
      (cache_lookup_mem cache (topic ++ "_" ++ model_key) e he)
  · have hmiss : cache_hit cache (topic ++ "_" ++ model_key) now = false :=
      Bool.eq_false_iff.mpr hh
    have hrd := run_debate_miss_eq env cache now d topic model_key model_id ht hm hid hmiss
    rw [hrd] at hs ⊢
    cases hdo : debate_orchestration env topic model_id with
    | mk res calls =>
      cases res with
      | error e => simp [run_debate_fresh, hdo] at hs
      | ok payload =>
        have hshape := debate_orchestration_ok_shape env topic model_id payload calls hdo
        have hp : payload = p := by simpa [run_debate_fresh, hdo] using hs
        refine ⟨by rw [← hp]; exact hshape, ?_⟩
        intro pr hpr
        simp only [run_debate_fresh, hdo] at hpr
        rcases cache_store_mem cache (topic ++ "_" ++ model_key) ⟨now, payload⟩ pr hpr
          with hold | hnew
        · exact hcache pr hold
        · rw [hnew]
          exact hshape

/-- Witness for C5: a fresh successful run on an empty cache satisfies the
shape property and leaves a well-shaped cache. -/
theorem claim_c5_witness :
    good_payload ⟨[("tech_optimist", "reply"), ("ai_ethicist", "reply")], "reply", "reply"⟩ ∧
    ∀ pr ∈ (run_debate stub_env [] 0 (some [("topic", "t")])).cache,
      good_payload (Prod.snd pr).response :=
  claim_c5_success_shape stub_env [] 0 [("topic", "t")]
    "t" "llama3" "meta-llama/Meta-Llama-3-8B-Instruct"
    ⟨[("tech_optimist", "reply"), ("ai_ethicist", "reply")], "reply", "reply"⟩
    (by simp) rfl rfl rfl rfl

/-- C7: a request naming a model key outside the configured set is answered
with the 400 "not supported" validation error by both endpoints, with no
evidence fetch and no inference call. -/
theorem claim_c7_unsupported_model_rejected (env : Env)
    (cache : List (String × CacheEntry)) (now : Nat)
    (d : List (String × String)) (k : String)
    (ht : (lookup d "topic").isSome = true)
    (hmk : lookup d "model" = some k)
    (hk : lookup SUPPORTED_MODELS k = none) :
    run_debate env cache now (some d) =
      ⟨Resp.badRequest (model_not_supported_msg k), cache, false, []⟩ ∧
    analyze_topic env (some d) =
      ⟨AResp.badRequest (model_not_supported_msg k), false, []⟩ := by
  obtain ⟨topic, htv⟩ := Option.isSome_iff_exists.mp ht
  have hne := lookup_some_ne_empty htv
  constructor
  · simp [run_debate, hne, htv, hmk, hk]
  · simp [analyze_topic, hne, htv, hmk, hk]

/-- Witness for C7: requesting model "gpt5". -/
theorem claim_c7_witness :
    run_debate stub_env [] 0 (some [("topic", "t"), ("model", "gpt5")]) =
      ⟨Resp.badRequest (model_not_supported_msg "gpt5"), [], false, []⟩ ∧
    analyze_topic stub_env (some [("topic", "t"), ("model", "gpt5")]) =
      ⟨AResp.badRequest (model_not_supported_msg "gpt5"), false, []⟩ :=
  claim_c7_unsupported_model_rejected stub_env [] 0
    [("topic", "t"), ("model", "gpt5")] "gpt5" rfl rfl rfl

/-- C8 as stated is false on the code: a request whose topic is the empty
string passes the `'topic' not in data` check, so it is not rejected with a
400 validation error — it proceeds to the evidence fetch and the full
orchestration. -/
theorem claim_c8_counterexample :
    (run_debate stub_env [] 0 (some [("topic", "")])).evidence_fetched = true ∧
    (run_debate stub_env [] 0 (some [("topic", "")])).resp =
      Resp.success ⟨[("tech_optimist", "reply"), ("ai_ethicist", "reply")],
        "reply", "reply"⟩ := by
  constructor <;> rfl

/-- C8 amended: a request whose body is unparseable JSON, or whose parsed
body lacks the "topic" key (an empty body included), is rejected by both
endpoints with the 400 validation error before any network call; a present
but empty-string topic is NOT rejected. -/
theorem claim_c8_missing_topic_rejected (env : Env)
    (cache : List (String × CacheEntry)) (now : Nat)
    (body : Option (List (String × String)))
    (h : body = none ∨ ∃ d, body = some d ∧ lookup d "topic" = none) :
    run_debate env cache now body = ⟨Resp.badRequest bad_body_msg, cache, false, []⟩ ∧
    analyze_topic env body = ⟨AResp.badRequest bad_body_msg, false, []⟩ := by
  rcases h with rfl | ⟨d, rfl, hd⟩
  · exact ⟨rfl, rfl⟩
  · constructor
    · simp [run_debate, hd]
    · simp [analyze_topic, hd]

/-- Witness for the amended C8: the unparseable-body case. -/
theorem claim_c8_witness :
    run_debate stub_env [] 0 none = ⟨Resp.badRequest bad_body_msg, [], false, []⟩ ∧
    analyze_topic stub_env none = ⟨AResp.badRequest bad_body_msg, false, []⟩ :=
  claim_c8_missing_topic_rejected stub_env [] 0 none (Or.inl rfl)

/-- C10: a request that omits the "model" field behaves exactly as the same
request with "model" set to "llama3", and "llama3" resolves to
"meta-llama/Meta-Llama-3-8B-Instruct" in the configured model set. -/
theorem claim_c10_default_model (env : Env) (cache : List (String × CacheEntry))
    (now : Nat) (d : List (String × String))
    (hm : lookup d "model" = none) :
    run_debate env cache now (some (("model", "llama3") :: d)) =
      run_debate env cache now (some d) ∧
    analyze_topic env (some (("model", "llama3") :: d)) =
      analyze_topic env (some d) ∧
    lookup SUPPORTED_MODELS "llama3" = some "meta-llama/Meta-Llama-3-8B-Instruct" := by
  have h1 : lookup (("model", "llama3") :: d) "topic" = lookup d "topic" := by
    simp only [lookup]
    rw [if_neg (by decide)]
  have h2 : lookup (("model", "llama3") :: d) "model" = some "llama3" := by
    simp [lookup]
  cases htop : lookup d "topic" with
  | none =>
    refine ⟨?_, ?_, rfl⟩
    · simp [run_debate, h1, htop]
    · simp [analyze_topic, h1, htop]
  | some topic =>
    have hne : d.isEmpty = false := lookup_some_ne_empty htop
    refine ⟨?_, ?_, rfl⟩
    · simp [run_debate, h1, h2, htop, hm, hne, DEFAULT_MODEL]
    · simp [analyze_topic, h1, h2, htop, hm, hne, DEFAULT_MODEL]

/-- Witness for C10: a concrete topic-only request. -/
theorem claim_c10_witness :
    run_debate stub_env [] 0 (some [("model", "llama3"), ("topic", "t")]) =
      run_debate stub_env [] 0 (some [("topic", "t")]) ∧
    analyze_topic stub_env (some [("model", "llama3"), ("topic", "t")]) =
      analyze_topic stub_env (some [("topic", "t")]) ∧
    lookup SUPPORTED_MODELS "llama3" = some "meta-llama/Meta-Llama-3-8B-Instruct" :=
  claim_c10_default_model stub_env [] 0 [("topic", "t")] rfl

end Atlas
